import Mathlib

/-!
Verification of the VDBE C wrapper (`src/c/vdbe_rust.c`) against its
natural-language specification.

The wrapper in `src/c/vdbe_rust.c` is a thin FFI layer over SQLite's
internal VDBE structures.  The wrapper's own logic (NULL-handle checks,
register bounds checks `reg < 1 || reg > p->nMem`, fixed default return
values) is transcribed here directly from the C source.  The internal
SQLite functions it calls — `sqlite3VdbeCreate`, `sqlite3VdbeMakeReady`,
`sqlite3VdbeMemSetInt64`, `sqlite3VdbeIntValue`, `sqlite3VdbeMakeLabel`,
`sqlite3VdbeResolveLabel`, `sqlite3VdbeAddOp2`, `sqlite3_step`, ... —
are not part of `src/`; those are modelled from the specification, each
such definition carrying a doc comment that starts `Modelled from the
spec:`.

Representation choices:
* a C `sqlite3_int64` is modelled as `Int` (no arithmetic is performed
  on register values by the code under verification, so no wrap-around
  is involved);
* a C `double` is modelled as an exact rational `ℚ`; the claims under
  verification concern store/retrieve identity and the integer-coercion
  policy, which are exact-value properties;
* the opaque `sqlite3` database connection is modelled as `Unit` (the
  wrapper only checks it against NULL);
* nullable C pointers are modelled as `Option`.
-/

/-- The opaque database-connection handle: the code under verification
only ever compares it with NULL. -/
def sqlite3 : Type := Unit

/-- `SQLITE_OK` status code (0 = ok, per the shared status convention). -/
def SQLITE_OK : Int := 0

/-- `SQLITE_ERROR` status code. -/
def SQLITE_ERROR : Int := 1

/-- `SQLITE_ROW` status code: a step produced a row. -/
def SQLITE_ROW : Int := 100

/-- `SQLITE_DONE` status code: a step halted cleanly. -/
def SQLITE_DONE : Int := 101

/-- Modelled from the spec: the Value Cell, "a tagged union holding
exactly one of: null, 64-bit signed integer, 64-bit floating point, a
byte string (owned, with length), a binary blob (owned, with length)".
(The internal row/pointer payload variant is never reachable through
the verified API surface and is omitted.)  Doubles are modelled as
exact rationals. -/
inductive Value where
  | null : Value
  | int (i : Int) : Value
  | real (r : ℚ) : Value
  | text (s : List Char) : Value
  | blob (b : List Nat) : Value
deriving DecidableEq, Repr

/-- Opcodes reachable through the verified surface: the implicit `OP_Init`
at address 0, `OP_Integer`, `OP_ResultRow`, `OP_Halt` (used by
`sqlite3_vdbe_test_simple`, src lines 205-209) and `OP_Goto`, the plain
jump opcode used with labels. -/
inductive OpKind where
  | Init : OpKind
  | Integer : OpKind
  | ResultRow : OpKind
  | Halt : OpKind
  | Goto : OpKind
deriving DecidableEq, Repr

/-- An Opcode Record: "(operation code, operand1, operand2, operand3)". -/
structure VdbeOp where
  opcode : OpKind
  p1 : Int
  p2 : Int
  p3 : Int
deriving DecidableEq, Repr

/-- The VDBE state, mirroring the fields the C wrapper reads and writes:
`aOp`/`nOp` (the program; `nOp = prog.length`), `eVdbeState`
(0=INIT, 1=READY, 2=RUN, 3=HALT, per the comment at src lines 74-75),
`nMem`/`aMem` (register file; registers are indexed `1..nMem`, slot 0
reserved, so `aMem` holds `nMem + 1` cells), `nCursor`, the program
counter `pc`, the label-allocation counter and the label-resolution
table (spec §2 "Label Table"), and `resRow`, the registers exposed as
the current output row after `OP_ResultRow`. -/
structure Vdbe where
  prog : List VdbeOp
  eVdbeState : Int
  nMem : Int
  nCursor : Int
  aMem : List Value
  pc : Int
  nLabel : Nat
  aLabel : List (Int × Int)
  resRow : List Value
deriving DecidableEq, Repr

/-- Modelled from the spec: truncation toward zero of a real, the
"get-as-integer ... from real truncates" coercion rule of §9 (SQLite's
`doubleToInt64`, not in `src/`). -/
def doubleToInt64 (r : ℚ) : Int :=
  if 0 ≤ r then ⌊r⌋ else ⌈r⌉

/-- Accumulating parse of leading decimal digits of a byte string. -/
def parseDigits : List Char → Nat → Nat
  | [], acc => acc
  | c :: rest, acc =>
      if c.isDigit then parseDigits rest (acc * 10 + (c.toNat - 48)) else acc

/-- Modelled from the spec: "get-as-integer from text parses leading
digits" (§9); an optional sign followed by leading digits, anything
non-numeric contributing 0. -/
def parseLeadingInt : List Char → Int
  | '-' :: rest => -(parseDigits rest 0 : Int)
  | '+' :: rest => (parseDigits rest 0 : Int)
  | s => (parseDigits s 0 : Int)

/-- Modelled from the spec: `sqlite3VdbeIntValue` (not in `src/`), the
permissive get-as-integer coercion of §4.3/§9: an integer is returned
as is, a real truncates toward zero, a numeric string parses its
leading digits, null yields 0, and a non-numeric value yields 0 (a
blob is non-numeric through this surface). -/
def sqlite3VdbeIntValue : Value → Int
  | .null => 0
  | .int i => i
  | .real r => doubleToInt64 r
  | .text s => parseLeadingInt s
  | .blob _ => 0

/-- Modelled from the spec: `sqlite3VdbeRealValue` (not in `src/`):
a real is returned as is, an integer is widened, a numeric string is
parsed, null and non-numeric values yield 0. -/
def sqlite3VdbeRealValue : Value → ℚ
  | .null => 0
  | .int i => (i : ℚ)
  | .real r => r
  | .text s => (parseLeadingInt s : ℚ)
  | .blob _ => 0

/-- Modelled from the spec: `sqlite3VdbeCreate` as wrapped by
`sqlite3_vdbe_create` (src lines 22-37): the VM is "created empty
(Program empty except the implicit init instruction, Register File and
Cursor Table unsized)"; "Address 0 conventionally holds an
initialization instruction inserted at creation time" — per the
comment at src line 206 that instruction is `OP_Init(0,1)`. -/
def Vdbe.create : Vdbe :=
  { prog := [⟨.Init, 0, 1, 0⟩]
    eVdbeState := 0
    nMem := 0
    nCursor := 0
    aMem := []
    pc := 0
    nLabel := 0
    aLabel := []
    resRow := [] }

/-- `sqlite3_vdbe_create` (src lines 22-37): returns NULL when the
database handle is NULL, otherwise a freshly created VM. -/
def sqlite3_vdbe_create (db : Option sqlite3) : Option Vdbe :=
  match db with
  | none => none
  | some _ => some Vdbe.create

/-- `sqlite3_vdbe_set_int` core (src lines 88-93): bounds-check
`reg < 1 || reg > p->nMem`, on failure return `SQLITE_ERROR` touching
nothing; otherwise store the integer in the register cell
(`sqlite3VdbeMemSetInt64`, whose effect — the cell now holds exactly
that integer — is modelled from the spec's Value Cell invariant). -/
def Vdbe.setInt (v : Vdbe) (reg : Int) (value : Int) : Int × Vdbe :=
  if reg < 1 ∨ reg > v.nMem then (SQLITE_ERROR, v)
  else (SQLITE_OK, { v with aMem := v.aMem.set reg.toNat (.int value) })

/-- `sqlite3_vdbe_get_int` core (src lines 101-105): out of bounds
returns 0, otherwise `sqlite3VdbeIntValue` of the cell. -/
def Vdbe.getInt (v : Vdbe) (reg : Int) : Int :=
  if reg < 1 ∨ reg > v.nMem then 0
  else sqlite3VdbeIntValue (v.aMem.getD reg.toNat .null)

/-- `sqlite3_vdbe_set_double` core (src lines 110-115). -/
def Vdbe.setDouble (v : Vdbe) (reg : Int) (value : ℚ) : Int × Vdbe :=
  if reg < 1 ∨ reg > v.nMem then (SQLITE_ERROR, v)
  else (SQLITE_OK, { v with aMem := v.aMem.set reg.toNat (.real value) })

/-- `sqlite3_vdbe_get_double` core (src lines 120-124): out of bounds
returns 0.0, otherwise `sqlite3VdbeRealValue` of the cell. -/
def Vdbe.getDouble (v : Vdbe) (reg : Int) : ℚ :=
  if reg < 1 ∨ reg > v.nMem then 0
  else sqlite3VdbeRealValue (v.aMem.getD reg.toNat .null)

/-- `sqlite3_vdbe_set_null` core (src lines 129-134). -/
def Vdbe.setNull (v : Vdbe) (reg : Int) : Int × Vdbe :=
  if reg < 1 ∨ reg > v.nMem then (SQLITE_ERROR, v)
  else (SQLITE_OK, { v with aMem := v.aMem.set reg.toNat .null })

/-- `sqlite3_vdbe_is_null` core (src lines 139-143): out of bounds
returns 1 (true); otherwise 1 iff the `MEM_Null` flag is set, i.e. the
cell's active tag is null. -/
def Vdbe.isNull (v : Vdbe) (reg : Int) : Int :=
  if reg < 1 ∨ reg > v.nMem then 1
  else if v.aMem.getD reg.toNat .null = .null then 1 else 0

/-- `sqlite3_vdbe_set_int` (src lines 88-93) with the NULL-handle
check of src line 89. -/
def sqlite3_vdbe_set_int (p : Option Vdbe) (reg : Int) (value : Int) :
    Int × Option Vdbe :=
  match p with
  | none => (SQLITE_ERROR, none)
  | some v => let r := v.setInt reg value; (r.1, some r.2)

/-- `sqlite3_vdbe_get_int` (src lines 101-105). -/
def sqlite3_vdbe_get_int (p : Option Vdbe) (reg : Int) : Int :=
  match p with
  | none => 0
  | some v => v.getInt reg

/-- `sqlite3_vdbe_set_double` (src lines 110-115). -/
def sqlite3_vdbe_set_double (p : Option Vdbe) (reg : Int) (value : ℚ) :
    Int × Option Vdbe :=
  match p with
  | none => (SQLITE_ERROR, none)
  | some v => let r := v.setDouble reg value; (r.1, some r.2)

/-- `sqlite3_vdbe_get_double` (src lines 120-124). -/
def sqlite3_vdbe_get_double (p : Option Vdbe) (reg : Int) : ℚ :=
  match p with
  | none => 0
  | some v => v.getDouble reg

/-- `sqlite3_vdbe_set_null` (src lines 129-134). -/
def sqlite3_vdbe_set_null (p : Option Vdbe) (reg : Int) : Int × Option Vdbe :=
  match p with
  | none => (SQLITE_ERROR, none)
  | some v => let r := v.setNull reg; (r.1, some r.2)

/-- `sqlite3_vdbe_is_null` (src lines 139-143). -/
def sqlite3_vdbe_is_null (p : Option Vdbe) (reg : Int) : Int :=
  match p with
  | none => 1
  | some v => v.isNull reg

/-- `sqlite3_vdbe_op_count` core (src lines 68-71): reads `p->nOp`,
writing nothing; the returned state is the one the C function leaves
behind, transcribed as the unchanged input. -/
def Vdbe.opCount (v : Vdbe) : Int × Vdbe :=
  ((v.prog.length : Int), v)

/-- `sqlite3_vdbe_op_count` (src lines 68-71): 0 on a NULL handle. -/
def sqlite3_vdbe_op_count (p : Option Vdbe) : Int × Option Vdbe :=
  match p with
  | none => (0, none)
  | some v => let r := v.opCount; (r.1, some r.2)

/-- `sqlite3_vdbe_state` core (src lines 77-80): reads `p->eVdbeState`,
writing nothing. -/
def Vdbe.state (v : Vdbe) : Int × Vdbe :=
  (v.eVdbeState, v)

/-- `sqlite3_vdbe_state` (src lines 77-80): -1 on a NULL handle. -/
def sqlite3_vdbe_state (p : Option Vdbe) : Int × Option Vdbe :=
  match p with
  | none => (-1, none)
  | some v => let r := v.state; (r.1, some r.2)

/-- `sqlite3_vdbe_mem_count` core (src lines 148-151): reads `p->nMem`,
writing nothing. -/
def Vdbe.memCount (v : Vdbe) : Int × Vdbe :=
  (v.nMem, v)

/-- `sqlite3_vdbe_mem_count` (src lines 148-151): 0 on a NULL handle. -/
def sqlite3_vdbe_mem_count (p : Option Vdbe) : Int × Option Vdbe :=
  match p with
  | none => (0, none)
  | some v => let r := v.memCount; (r.1, some r.2)

/-- `sqlite3_vdbe_cursor_count` core (src lines 156-159): reads
`p->nCursor`, writing nothing. -/
def Vdbe.cursorCount (v : Vdbe) : Int × Vdbe :=
  (v.nCursor, v)

/-- `sqlite3_vdbe_cursor_count` (src lines 156-159): 0 on a NULL
handle. -/
def sqlite3_vdbe_cursor_count (p : Option Vdbe) : Int × Option Vdbe :=
  match p with
  | none => (0, none)
  | some v => let r := v.cursorCount; (r.1, some r.2)

/-- Modelled from the spec: `sqlite3VdbeMakeLabel` as wrapped by
`sqlite3_vdbe_make_label` (src lines 167-182): "Returns a fresh
negative identifier, unique among outstanding unresolved labels for
this program" (§4.1); "a negative placeholder integer" (§3).  The
freshness counter belongs to the per-program Label Table (§2), so it
lives in the VM state here (the C wrapper hands the internal function
a transient `Parse` whose `pVdbe` points back at the VM). -/
def Vdbe.makeLabel (v : Vdbe) : Int × Vdbe :=
  (-((v.nLabel : Int) + 1), { v with nLabel := v.nLabel + 1 })

/-- `sqlite3_vdbe_make_label` (src lines 167-182): 0 on a NULL
handle. -/
def sqlite3_vdbe_make_label (p : Option Vdbe) : Int × Option Vdbe :=
  match p with
  | none => (0, none)
  | some v => let r := v.makeLabel; (r.1, some r.2)

/-- Modelled from the spec: `sqlite3VdbeResolveLabel` as wrapped by
`sqlite3_vdbe_resolve_label` (src lines 187-190): "Binds the label to
the address of the next instruction that will be appended (i.e., the
current end of the Program)" (§4.1).  The binding is recorded in the
Label Table; referencing opcodes see it rewritten at the readiness
transition, before the first execution step. -/
def Vdbe.resolveLabel (v : Vdbe) (label : Int) : Vdbe :=
  { v with aLabel := (label, (v.prog.length : Int)) :: v.aLabel }

/-- `sqlite3_vdbe_resolve_label` (src lines 187-190): no-op on a NULL
handle. -/
def sqlite3_vdbe_resolve_label (p : Option Vdbe) (label : Int) :
    Option Vdbe :=
  match p with
  | none => none
  | some v => some (v.resolveLabel label)

/-- Look up a label in the Label Table (most recent binding first). -/
def lookupLabel : List (Int × Int) → Int → Option Int
  | [], _ => none
  | (l, a) :: rest, x => if l = x then some a else lookupLabel rest x

/-- Rewrite one opcode's jump-target operand: a negative `p2` that is
a bound label becomes the bound address.  (Mirrors SQLite's
`resolveP2Values` pass run during make-ready, modelled from the spec:
"All opcodes that referenced the label ... must, at the first
execution step, see the jump target rewritten to this resolved
address".) -/
def fixupOp (tbl : List (Int × Int)) (op : VdbeOp) : VdbeOp :=
  if op.p2 < 0 then
    match lookupLabel tbl op.p2 with
    | some a => { op with p2 := a }
    | none => op
  else op

/-- Modelled from the spec: `sqlite3VdbeMakeReady` as wrapped by
`sqlite3_vdbe_make_ready` (src lines 48-63): "Allocates Register File
with `register_count` cells (all initialized to null) and Cursor Table
with `cursor_count` empty slots" (§4.2); registers are indexed
`1..nMem` with slot 0 reserved, so `nMem + 1` cells are held; label
references are rewritten to their resolved addresses; the state moves
`INIT → READY` (§4.5) and the program counter sits at address 0. -/
def Vdbe.makeReady (v : Vdbe) (nMem nCursor : Int) : Vdbe :=
  { v with
    nMem := nMem
    nCursor := nCursor
    aMem := List.replicate (nMem.toNat + 1) .null
    prog := v.prog.map (fixupOp v.aLabel)
    eVdbeState := 1
    pc := 0 }

/-- `sqlite3_vdbe_make_ready` (src lines 48-63): no-op on a NULL
handle. -/
def sqlite3_vdbe_make_ready (p : Option Vdbe) (nMem nCursor : Int) :
    Option Vdbe :=
  match p with
  | none => none
  | some v => some (v.makeReady nMem nCursor)

/-- Modelled from the spec: `sqlite3VdbeAddOp3` (§4.1): "Appends one
instruction at the next free address; returns that address.  No
validation of operand semantics is performed at append time." -/
def Vdbe.addOp (v : Vdbe) (opcode : OpKind) (p1 p2 p3 : Int) :
    Int × Vdbe :=
  ((v.prog.length : Int), { v with prog := v.prog ++ [⟨opcode, p1, p2, p3⟩] })

/-- Modelled from the spec: `sqlite3VdbeAddOp2` — `addOp` with the
third operand 0, as used at src lines 207-208. -/
def Vdbe.addOp2 (v : Vdbe) (opcode : OpKind) (p1 p2 : Int) : Int × Vdbe :=
  v.addOp opcode p1 p2 0

/-- Modelled from the spec: `sqlite3VdbeAddOp0` — `addOp` with all
operands 0, as used at src line 209. -/
def Vdbe.addOp0 (v : Vdbe) (opcode : OpKind) : Int × Vdbe :=
  v.addOp opcode 0 0 0

/-- Outcome of executing one instruction (§4.5): "*row produced*,
*continue*, *done*, or *error*". -/
inductive StepOutcome where
  | row : StepOutcome
  | cont : StepOutcome
  | done : StepOutcome
  | error : StepOutcome
deriving DecidableEq, Repr

/-- Modelled from the spec: one micro-step of the interpreter loop
(§4.5).  Decodes the opcode at the current instruction pointer,
dispatches, and advances the instruction pointer according to the
handler's effect (sequential +1 or a jump): `OP_Init p1 p2` jumps to
`p2` (the implicit `OP_Init(0,1)` of src line 206 starts execution at
address 1); `OP_Integer p1 p2` loads the literal `p1` into register
`p2`; `OP_Goto _ p2` jumps to `p2`; `OP_ResultRow p1 p2` exposes
registers `p1 .. p1+p2-1` as the output row; `OP_Halt` moves to
`HALTED`.  Running past the last instruction halts.  A non-halting
step leaves the machine `RUNNING` (`READY → RUNNING` on the first
step, `RUNNING → RUNNING` after). -/
def Vdbe.microStep (v : Vdbe) : StepOutcome × Vdbe :=
  match v.prog[v.pc.toNat]? with
  | none => (.done, { v with eVdbeState := 3 })
  | some op =>
    match op.opcode with
    | .Init => (.cont, { v with pc := op.p2, eVdbeState := 2 })
    | .Integer =>
        (.cont, { v with aMem := v.aMem.set op.p2.toNat (.int op.p1),
                         pc := v.pc + 1, eVdbeState := 2 })
    | .Goto => (.cont, { v with pc := op.p2, eVdbeState := 2 })
    | .ResultRow =>
        (.row, { v with
          resRow := (List.range op.p2.toNat).map
                      (fun i => v.aMem.getD (op.p1.toNat + i) .null),
          pc := v.pc + 1, eVdbeState := 2 })
    | .Halt => (.done, { v with eVdbeState := 3 })

/-- Modelled from the spec: `sqlite3_step` drives micro-steps until one
yields a row, halts, or errs; the fuel bounds the number of
micro-steps (every terminating run is insensitive to any larger
fuel).  Returns the shared-convention status code: `SQLITE_ROW` for a
row, `SQLITE_DONE` for a clean halt, `SQLITE_ERROR` otherwise. -/
def Vdbe.stepN : Nat → Vdbe → Int × Vdbe
  | 0, v => (SQLITE_ERROR, v)
  | fuel + 1, v =>
    match v.microStep with
    | (.row, v') => (SQLITE_ROW, v')
    | (.done, v') => (SQLITE_DONE, v')
    | (.error, v') => (SQLITE_ERROR, v')
    | (.cont, v') => Vdbe.stepN fuel v'

/-- Modelled from the spec: the addresses executed by a fueled run,
in order — the execution trace used to check that jumped-over
instructions never execute. -/
def Vdbe.trace : Nat → Vdbe → List Int
  | 0, _ => []
  | fuel + 1, v =>
    match v.prog[v.pc.toNat]? with
    | none => []
    | some _ =>
      match v.microStep with
      | (.cont, v') => v.pc :: Vdbe.trace fuel v'
      | (.row, v') => v.pc :: Vdbe.trace fuel v'
      | _ => [v.pc]

/-- Modelled from the spec: `sqlite3_column_int(p, i)` — the value of
column `i` of the current output row, read as an integer through the
permissive coercion. -/
def sqlite3_column_int (v : Vdbe) (iCol : Int) : Int :=
  sqlite3VdbeIntValue (v.resRow.getD iCol.toNat .null)

/-- `sqlite3_vdbe_test_simple` (src lines 196-227), transcribed: create
a VM (NULL db gives -2), append `OP_Integer 42 1`, `OP_ResultRow 1 1`,
`OP_Halt`, make it ready with 2 registers and 0 cursors, step once; on
`SQLITE_ROW` return column 0 as an integer, otherwise the negated
status code.  (The internal routines it calls are the spec-modelled
definitions above; the fuel 8 exceeds the program's length, so the
single outer step is fuel-insensitive.) -/
def sqlite3_vdbe_test_simple (db : Option sqlite3) : Int :=
  match sqlite3_vdbe_create db with
  | none => -2
  | some p0 =>
    let p1 := (p0.addOp2 .Integer 42 1).2
    let p2 := (p1.addOp2 .ResultRow 1 1).2
    let p3 := (p2.addOp0 .Halt).2
    let p4 := p3.makeReady 2 0
    let r := p4.stepN 8
    if r.1 = SQLITE_ROW then sqlite3_column_int r.2 0 else -r.1

/-- A VM "made ready with `N` registers": its register count is `N` and
its register file holds `N + 1` cells (slot 0 reserved).
`Vdbe.makeReady` establishes this and every setter preserves it. -/
def Vdbe.ready (v : Vdbe) (N : Int) : Prop :=
  v.nMem = N ∧ v.aMem.length = N.toNat + 1

lemma ready_makeReady (v : Vdbe) (N c : Int) : (v.makeReady N c).ready N := by
  constructor <;> simp [Vdbe.makeReady, Vdbe.ready]

lemma not_oob {v : Vdbe} {N r : Int} (hv : v.ready N) (h1 : 1 ≤ r)
    (h2 : r ≤ N) : ¬(r < 1 ∨ r > v.nMem) := by
  rcases hv with ⟨hm, _⟩
  omega

lemma toNat_lt_len {v : Vdbe} {N r : Int} (hv : v.ready N) (h1 : 1 ≤ r)
    (h2 : r ≤ N) : r.toNat < v.aMem.length := by
  rcases hv with ⟨hm, hl⟩
  omega

/-- C1: on a VM made ready with `N` registers, for every register index
`r` in `[1, N]`: `set_int r v` then `get_int r` returns `v`; `set_double
r v` then `get_double r` returns `v`; `set_null r` then `is_null r`
returns true (1). -/
theorem C1_register_roundtrip (v : Vdbe) (N r : Int) (i : Int) (d : ℚ)
    (hv : v.ready N) (h1 : 1 ≤ r) (h2 : r ≤ N) :
    sqlite3_vdbe_get_int (sqlite3_vdbe_set_int (some v) r i).2 r = i ∧
    sqlite3_vdbe_get_double (sqlite3_vdbe_set_double (some v) r d).2 r = d ∧
    sqlite3_vdbe_is_null (sqlite3_vdbe_set_null (some v) r).2 r = 1 := by
  have hob := not_oob hv h1 h2
  have hlen := toNat_lt_len hv h1 h2
  refine ⟨?_, ?_, ?_⟩ <;>
    simp [sqlite3_vdbe_set_int, sqlite3_vdbe_get_int,
      sqlite3_vdbe_set_double, sqlite3_vdbe_get_double,
      sqlite3_vdbe_set_null, sqlite3_vdbe_is_null,
      Vdbe.setInt, Vdbe.getInt, Vdbe.setDouble, Vdbe.getDouble,
      Vdbe.setNull, Vdbe.isNull, hob, List.getElem?_set_self, hlen,
      sqlite3VdbeIntValue, sqlite3VdbeRealValue]

theorem C1_register_roundtrip_witness :
    ((Vdbe.create.makeReady 3 0).ready 3 ∧ (1 : Int) ≤ 2 ∧ (2 : Int) ≤ 3) ∧
    (sqlite3_vdbe_get_int
        (sqlite3_vdbe_set_int (some (Vdbe.create.makeReady 3 0)) 2 7).2 2 = 7 ∧
      sqlite3_vdbe_get_double
        (sqlite3_vdbe_set_double (some (Vdbe.create.makeReady 3 0)) 2 5).2 2 = 5 ∧
      sqlite3_vdbe_is_null
        (sqlite3_vdbe_set_null (some (Vdbe.create.makeReady 3 0)) 2).2 2 = 1) :=
  ⟨⟨by constructor <;> decide, by decide, by decide⟩,
    C1_register_roundtrip (Vdbe.create.makeReady 3 0) 3 2 7 5
      ⟨by decide, by decide⟩ (by decide) (by decide)⟩

/-- C2: on a VM made ready with `N` registers, for every index outside
`[1, N]` the getters return the type-appropriate default without
failing: `get_int` returns 0, `get_double` returns 0.0, `is_null`
returns true (1). -/
theorem C2_oob_getters_default (v : Vdbe) (N r : Int) (hN : v.nMem = N)
    (hr : r < 1 ∨ r > N) :
    sqlite3_vdbe_get_int (some v) r = 0 ∧
    sqlite3_vdbe_get_double (some v) r = 0 ∧
    sqlite3_vdbe_is_null (some v) r = 1 := by
  have hr' : r < 1 ∨ r > v.nMem := by omega
  refine ⟨?_, ?_, ?_⟩ <;>
    simp [sqlite3_vdbe_get_int, sqlite3_vdbe_get_double,
      sqlite3_vdbe_is_null, Vdbe.getInt, Vdbe.getDouble, Vdbe.isNull,
      if_pos hr']

theorem C2_oob_getters_default_witness :
    ((Vdbe.create.makeReady 3 0).nMem = 3 ∧
      ((5 : Int) < 1 ∨ (5 : Int) > 3)) ∧
    (sqlite3_vdbe_get_int (some (Vdbe.create.makeReady 3 0)) 5 = 0 ∧
      sqlite3_vdbe_get_double (some (Vdbe.create.makeReady 3 0)) 5 = 0 ∧
      sqlite3_vdbe_is_null (some (Vdbe.create.makeReady 3 0)) 5 = 1) :=
  ⟨⟨by decide, by decide⟩,
    C2_oob_getters_default (Vdbe.create.makeReady 3 0) 3 5 (by decide)
      (by decide)⟩

/-- C3: on a VM made ready with `N` registers, for every index outside
`[1, N]` each setter returns `SQLITE_ERROR` and leaves the VM — in
particular every register — unchanged. -/
theorem C3_oob_setters_no_mutation (v : Vdbe) (N r i : Int) (d : ℚ)
    (hN : v.nMem = N) (hr : r < 1 ∨ r > N) :
    sqlite3_vdbe_set_int (some v) r i = (SQLITE_ERROR, some v) ∧
    sqlite3_vdbe_set_double (some v) r d = (SQLITE_ERROR, some v) ∧
    sqlite3_vdbe_set_null (some v) r = (SQLITE_ERROR, some v) := by
  have hr' : r < 1 ∨ r > v.nMem := by omega
  refine ⟨?_, ?_, ?_⟩ <;>
    simp [sqlite3_vdbe_set_int, sqlite3_vdbe_set_double,
      sqlite3_vdbe_set_null, Vdbe.setInt, Vdbe.setDouble, Vdbe.setNull,
      if_pos hr']

theorem C3_oob_setters_no_mutation_witness :
    ((Vdbe.create.makeReady 3 0).nMem = 3 ∧
      ((0 : Int) < 1 ∨ (0 : Int) > 3)) ∧
    (sqlite3_vdbe_set_int (some (Vdbe.create.makeReady 3 0)) 0 7 =
        (SQLITE_ERROR, some (Vdbe.create.makeReady 3 0)) ∧
      sqlite3_vdbe_set_double (some (Vdbe.create.makeReady 3 0)) 0 5 =
        (SQLITE_ERROR, some (Vdbe.create.makeReady 3 0)) ∧
      sqlite3_vdbe_set_null (some (Vdbe.create.makeReady 3 0)) 0 =
        (SQLITE_ERROR, some (Vdbe.create.makeReady 3 0))) :=
  ⟨⟨by decide, by decide⟩,
    C3_oob_setters_no_mutation (Vdbe.create.makeReady 3 0) 3 0 7 5
      (by decide) (by decide)⟩

/-- C4 counterexample: on a VM made ready with 1 register, storing the
double -5/2 in register 1 and reading it back as an integer yields -2
(truncation toward zero), not `⌊-5/2⌋ = -3`: `get_int` does NOT return
the floor of the stored double. -/
theorem C4_floor_counterexample :
    sqlite3_vdbe_get_int
        (sqlite3_vdbe_set_double (some (Vdbe.create.makeReady 1 0)) 1
          (-5 / 2)).2 1 ≠ ⌊(-5 / 2 : ℚ)⌋ := by
  have h1 : sqlite3_vdbe_get_int
      (sqlite3_vdbe_set_double (some (Vdbe.create.makeReady 1 0)) 1
        (-5 / 2)).2 1 = -2 := by
    norm_num [sqlite3_vdbe_set_double, sqlite3_vdbe_get_int,
      Vdbe.setDouble, Vdbe.getInt, Vdbe.makeReady, Vdbe.create,
      sqlite3VdbeIntValue, doubleToInt64, Int.ceil_neg]
  have h2 : ⌊(-5 / 2 : ℚ)⌋ = -3 := by norm_num
  omega

/-- C4 (amended): on a VM made ready with `N` registers, reading
register `r ∈ [1, N]` as an integer coerces: a stored double `d` comes
back as `doubleToInt64 d`, its truncation toward zero — which agrees
with the floor exactly when `0 ≤ d`; a stored text parses its leading
digits; a stored null yields 0; a stored (non-numeric) blob yields 0. -/
theorem C4_get_int_coercion (v : Vdbe) (N r : Int) (d : ℚ)
    (s : List Char) (b : List Nat)
    (hv : v.ready N) (h1 : 1 ≤ r) (h2 : r ≤ N) :
    sqlite3_vdbe_get_int (sqlite3_vdbe_set_double (some v) r d).2 r =
        doubleToInt64 d ∧
    (0 ≤ d → doubleToInt64 d = ⌊d⌋) ∧
    (v.aMem.getD r.toNat .null = .text s →
      sqlite3_vdbe_get_int (some v) r = parseLeadingInt s) ∧
    (v.aMem.getD r.toNat .null = .null →
      sqlite3_vdbe_get_int (some v) r = 0) ∧
    (v.aMem.getD r.toNat .null = .blob b →
      sqlite3_vdbe_get_int (some v) r = 0) := by
  have hob := not_oob hv h1 h2
  have hlen := toNat_lt_len hv h1 h2
  refine ⟨?_, ?_, ?_, ?_, ?_⟩
  · simp [sqlite3_vdbe_set_double, sqlite3_vdbe_get_int, Vdbe.setDouble,
      Vdbe.getInt, hob, List.getElem?_set_self, hlen, sqlite3VdbeIntValue]
  · intro hd
    simp [doubleToInt64, hd]
  all_goals
    intro hcell
    simp [sqlite3_vdbe_get_int, Vdbe.getInt, hob, List.getD] at hcell ⊢
    rw [hcell]
    simp [sqlite3VdbeIntValue]

theorem C4_get_int_coercion_witness :
    (({ Vdbe.create.makeReady 1 0 with
          aMem := [.null, .text ['4', '2', 'x']] } : Vdbe).ready 1 ∧
      (1 : Int) ≤ 1 ∧ (1 : Int) ≤ 1) ∧
    (sqlite3_vdbe_get_int
        (sqlite3_vdbe_set_double
          (some ({ Vdbe.create.makeReady 1 0 with
            aMem := [.null, .text ['4', '2', 'x']] } : Vdbe)) 1 (-5 / 2)).2
        1 = doubleToInt64 (-5 / 2) ∧
      (0 ≤ (-5 / 2 : ℚ) → doubleToInt64 (-5 / 2) = ⌊(-5 / 2 : ℚ)⌋) ∧
      (({ Vdbe.create.makeReady 1 0 with
            aMem := [.null, .text ['4', '2', 'x']] } : Vdbe).aMem.getD
          (1 : Int).toNat .null = .text ['4', '2', 'x'] →
        sqlite3_vdbe_get_int
          (some ({ Vdbe.create.makeReady 1 0 with
            aMem := [.null, .text ['4', '2', 'x']] } : Vdbe)) 1 =
          parseLeadingInt ['4', '2', 'x']) ∧
      (({ Vdbe.create.makeReady 1 0 with
            aMem := [.null, .text ['4', '2', 'x']] } : Vdbe).aMem.getD
          (1 : Int).toNat .null = .null →
        sqlite3_vdbe_get_int
          (some ({ Vdbe.create.makeReady 1 0 with
            aMem := [.null, .text ['4', '2', 'x']] } : Vdbe)) 1 = 0) ∧
      (({ Vdbe.create.makeReady 1 0 with
            aMem := [.null, .text ['4', '2', 'x']] } : Vdbe).aMem.getD
          (1 : Int).toNat .null = .blob [7] →
        sqlite3_vdbe_get_int
          (some ({ Vdbe.create.makeReady 1 0 with
            aMem := [.null, .text ['4', '2', 'x']] } : Vdbe)) 1 = 0)) :=
  ⟨⟨⟨by decide, by decide⟩, by decide, by decide⟩,
    C4_get_int_coercion
      ({ Vdbe.create.makeReady 1 0 with
        aMem := [.null, .text ['4', '2', 'x']] } : Vdbe) 1 1 (-5 / 2)
      ['4', '2', 'x'] [7] ⟨by decide, by decide⟩ (by decide) (by decide)⟩

/-- The program assembled by `sqlite3_vdbe_test_simple` (src lines
202-213): create, append `OP_Integer 42 1`, `OP_ResultRow 1 1`,
`OP_Halt`, make ready with 2 registers and 0 cursors. -/
def testProg : Vdbe :=
  let p0 := Vdbe.create
  let p1 := (p0.addOp2 .Integer 42 1).2
  let p2 := (p1.addOp2 .ResultRow 1 1).2
  let p3 := (p2.addOp0 .Halt).2
  p3.makeReady 2 0

/-- C5: the program "load integer 42 into register 1; result row from
register 1; halt" produces on its first step exactly one row whose
first column reads as integer 42; the next step halts cleanly, leaving
the VM `HALTED` (state 3); and `sqlite3_vdbe_test_simple` returns 42
on a live (non-NULL) database connection. -/
theorem C5_test_simple_runs (db : sqlite3) :
    (testProg.stepN 8).1 = SQLITE_ROW ∧
    sqlite3_column_int (testProg.stepN 8).2 0 = 42 ∧
    ((testProg.stepN 8).2.stepN 8).1 = SQLITE_DONE ∧
    ((testProg.stepN 8).2.stepN 8).2.eVdbeState = 3 ∧
    sqlite3_vdbe_test_simple (some db) = 42 :=
  ⟨by decide, by decide, by decide, by decide, rfl⟩

/-- The labels handed out by `n` successive `make_label` calls. -/
def Vdbe.makeLabels : Vdbe → Nat → List Int
  | _, 0 => []
  | v, n + 1 =>
    let r := v.makeLabel
    r.1 :: r.2.makeLabels n

lemma makeLabels_lt (n : Nat) (v : Vdbe) :
    ∀ l ∈ v.makeLabels n, l < -(v.nLabel : Int) := by
  induction n generalizing v with
  | zero => simp [Vdbe.makeLabels]
  | succ n ih =>
    intro l hl
    simp only [Vdbe.makeLabels, Vdbe.makeLabel, List.mem_cons] at hl
    rcases hl with h | h
    · subst h
      omega
    · have := ih _ l h
      simp only [] at this
      push_cast at this ⊢
      omega

lemma makeLabels_nodup (n : Nat) (v : Vdbe) : (v.makeLabels n).Nodup := by
  induction n generalizing v with
  | zero => simp [Vdbe.makeLabels]
  | succ n ih =>
    simp only [Vdbe.makeLabels, Vdbe.makeLabel, List.nodup_cons]
    refine ⟨fun hmem => ?_, ih _⟩
    have h2 := makeLabels_lt n _ _ hmem
    simp only [] at h2
    push_cast at h2
    omega

/-- C6: every `make_label` call returns a negative integer, and the
labels handed out by successive calls — the outstanding unresolved
labels of the program — are pairwise distinct. -/
theorem C6_labels_negative_distinct (v : Vdbe) (n : Nat) :
    (sqlite3_vdbe_make_label (some v)).1 < 0 ∧
    (∀ l ∈ v.makeLabels n, l < 0) ∧
    (v.makeLabels n).Nodup := by
  refine ⟨?_, fun l hl => ?_, makeLabels_nodup n v⟩
  · simp only [sqlite3_vdbe_make_label, Vdbe.makeLabel]
    omega
  · have := makeLabels_lt n v l hl
    omega

/-- Append a list of opcode records one at a time (iterated
`Vdbe.addOp`). -/
def Vdbe.addOps (v : Vdbe) (ops : List VdbeOp) : Vdbe :=
  ops.foldl (fun w op => (w.addOp op.opcode op.p1 op.p2 op.p3).2) v

lemma addOps_prog (ops : List VdbeOp) (v : Vdbe) :
    (v.addOps ops).prog = v.prog ++ ops := by
  induction ops generalizing v with
  | nil => simp [Vdbe.addOps]
  | cons op rest ih =>
    simp only [Vdbe.addOps, List.foldl_cons] at *
    rw [ih]
    simp [Vdbe.addOp]

lemma addOps_aLabel (ops : List VdbeOp) (v : Vdbe) :
    (v.addOps ops).aLabel = v.aLabel := by
  induction ops generalizing v with
  | nil => simp [Vdbe.addOps]
  | cons op rest ih =>
    simp only [Vdbe.addOps, List.foldl_cons] at *
    rw [ih]
    simp [Vdbe.addOp]

/-- The assembly state of the poison program just before label
resolution: create, make a label (it is -1), append `OP_Goto` whose
jump target is that label, append the poison `OP_Integer 99 1`.  The
program end is address 3, so resolving here binds the label to 3. -/
def poisonBase : Vdbe :=
  let r1 := Vdbe.create.makeLabel
  let p1 := (r1.2.addOp2 .Goto 0 r1.1).2
  (p1.addOp2 .Integer 99 1).2

/-- The finished poison program: after resolving the label at address
3, append `OP_Integer 42 1` and `OP_Halt`, and make ready with 2
registers.  Executing it must jump over the poison instruction at
address 2. -/
def poisonVm : Vdbe :=
  ((poisonBase.resolveLabel (-1)).addOps
    [⟨.Integer, 42, 1, 0⟩, ⟨.Halt, 0, 0, 0⟩]).makeReady 2 0

/-- C7: a label `l`, resolved when the program end is address `k` (the
program length at resolution time), rewrites every jump opcode whose
target operand is `l` — appended before or after the resolution — to
target `k` at the readiness transition, and executing that jump
transfers control to address `k`.  Concretely, on the poison program
the executed addresses are 0, 1, 3, 4: the jump at address 1 transfers
to the resolved address 3, the poison instruction at address 2 never
executes, and the run halts with register 1 holding 42. -/
theorem C7_label_jump_transfers (vmB : Vdbe) (l : Int)
    (post : List VdbeOp) (j : Nat) (n c q1 q3 : Int)
    (hl : l < 0)
    (hj : ((vmB.resolveLabel l).addOps post).prog[j]? =
      some ⟨.Goto, q1, l, q3⟩) :
    (((vmB.resolveLabel l).addOps post).makeReady n c).prog[j]? =
        some ⟨.Goto, q1, (vmB.prog.length : Int), q3⟩ ∧
    (Vdbe.microStep
        { ((vmB.resolveLabel l).addOps post).makeReady n c with
          pc := (j : Int) }).2.pc = (vmB.prog.length : Int) ∧
    poisonVm.trace 10 = [0, 1, 3, 4] ∧
    (2 : Int) ∉ poisonVm.trace 10 ∧
    (poisonVm.stepN 10).1 = SQLITE_DONE ∧
    (poisonVm.stepN 10).2.getInt 1 = 42 := by
  have htbl : ((vmB.resolveLabel l).addOps post).aLabel =
      (l, (vmB.prog.length : Int)) :: vmB.aLabel := by
    rw [addOps_aLabel]
    simp [Vdbe.resolveLabel]
  have hfix : fixupOp ((vmB.resolveLabel l).addOps post).aLabel
      ⟨.Goto, q1, l, q3⟩ = ⟨.Goto, q1, (vmB.prog.length : Int), q3⟩ := by
    rw [htbl]
    simp [fixupOp, hl, lookupLabel]
  have hmapped :
      (((vmB.resolveLabel l).addOps post).makeReady n c).prog[j]? =
        some ⟨.Goto, q1, (vmB.prog.length : Int), q3⟩ := by
    simp only [Vdbe.makeReady, List.getElem?_map, hj, Option.map_some']
    rw [hfix]
  refine ⟨hmapped, ?_, by decide, by decide, by decide, by decide⟩
  simp only [Vdbe.microStep, Int.toNat_natCast, hmapped]

theorem C7_label_jump_transfers_witness :
    ((-1 : Int) < 0 ∧
      ((poisonBase.resolveLabel (-1)).addOps
          [⟨.Integer, 42, 1, 0⟩, ⟨.Halt, 0, 0, 0⟩]).prog[1]? =
        some ⟨.Goto, 0, -1, 0⟩) ∧
    ((((poisonBase.resolveLabel (-1)).addOps
            [⟨.Integer, 42, 1, 0⟩, ⟨.Halt, 0, 0, 0⟩]).makeReady 2
          0).prog[1]? =
        some ⟨.Goto, 0, (poisonBase.prog.length : Int), 0⟩ ∧
      (Vdbe.microStep
          { ((poisonBase.resolveLabel (-1)).addOps
              [⟨.Integer, 42, 1, 0⟩, ⟨.Halt, 0, 0, 0⟩]).makeReady 2 0 with
            pc := ((1 : Nat) : Int) }).2.pc =
        (poisonBase.prog.length : Int) ∧
      poisonVm.trace 10 = [0, 1, 3, 4] ∧
      (2 : Int) ∉ poisonVm.trace 10 ∧
      (poisonVm.stepN 10).1 = SQLITE_DONE ∧
      (poisonVm.stepN 10).2.getInt 1 = 42) :=
  ⟨⟨by decide, by decide⟩,
    C7_label_jump_transfers poisonBase (-1)
      [⟨.Integer, 42, 1, 0⟩, ⟨.Halt, 0, 0, 0⟩] 1 2 0 0 0 (by decide)
      (by decide)⟩

/-- C8: a freshly created VM's program already holds exactly one
instruction — the implicit initialization instruction `OP_Init 0 1` at
address 0 — so `op_count` returns 1 and the first caller-appended
opcode is placed at address 1. -/
theorem C8_fresh_vm_init_op (db : sqlite3) (op : OpKind) (a b c : Int) :
    sqlite3_vdbe_create (some db) = some Vdbe.create ∧
    (sqlite3_vdbe_op_count (sqlite3_vdbe_create (some db))).1 = 1 ∧
    Vdbe.create.prog = [⟨.Init, 0, 1, 0⟩] ∧
    (Vdbe.create.addOp op a b c).1 = 1 :=
  ⟨rfl, rfl, rfl, rfl⟩

/-- C9: each introspection accessor returns its value and leaves the
VM identical — same program, register file, cursor table, and
lifecycle state — in every state. -/
theorem C9_accessors_no_side_effect (v : Vdbe) :
    sqlite3_vdbe_op_count (some v) = ((v.prog.length : Int), some v) ∧
    sqlite3_vdbe_state (some v) = (v.eVdbeState, some v) ∧
    sqlite3_vdbe_mem_count (some v) = (v.nMem, some v) ∧
    sqlite3_vdbe_cursor_count (some v) = (v.nCursor, some v) :=
  ⟨rfl, rfl, rfl, rfl⟩

/-- C10: every API function is total on a NULL handle and returns its
fixed default: `SQLITE_ERROR` for the setters; 0 for `get_int`,
`op_count`, `mem_count`, `cursor_count` and `make_label`; 0.0 for
`get_double`; 1 (true) for `is_null`; -1 for `state`; a no-op for
`make_ready` and `resolve_label`; and `create` returns NULL on a NULL
database handle. -/
theorem C10_null_handle_total (r i l n c : Int) (d : ℚ) :
    sqlite3_vdbe_create none = none ∧
    sqlite3_vdbe_set_int none r i = (SQLITE_ERROR, none) ∧
    sqlite3_vdbe_set_double none r d = (SQLITE_ERROR, none) ∧
    sqlite3_vdbe_set_null none r = (SQLITE_ERROR, none) ∧
    sqlite3_vdbe_get_int none r = 0 ∧
    sqlite3_vdbe_get_double none r = 0 ∧
    sqlite3_vdbe_is_null none r = 1 ∧
    sqlite3_vdbe_op_count none = (0, none) ∧
    sqlite3_vdbe_mem_count none = (0, none) ∧
    sqlite3_vdbe_cursor_count none = (0, none) ∧
    sqlite3_vdbe_make_label none = (0, none) ∧
    sqlite3_vdbe_state none = (-1, none) ∧
    sqlite3_vdbe_make_ready none n c = none ∧
    sqlite3_vdbe_resolve_label none l = none :=
  ⟨rfl, rfl, rfl, rfl, rfl, rfl, rfl, rfl, rfl, rfl, rfl, rfl, rfl, rfl⟩
